import Mathlib

/-!
Shallow embedding of `controllers/grafana/grafana_controller.go` from the
grafana-operator repository.

The Go file implements one reconcile cycle of a Kubernetes controller:
fetch the `Grafana` object, read cluster state, plan and apply actions,
then write status, resolve the admin URL and publish a readiness event
(`manageSuccess`), or route failures through a unified error path
(`manageError`).

External collaborators (the split client's `Get`, `Status().Update`, the
cluster-state reader, the action runner, and the config-map reconciler)
are modelled as an oracle (`World`) giving the outcome of each call site;
within one reconcile invocation every one of these call sites executes at
most once, so one outcome per call site is a faithful model.  The
observable behaviour of a cycle (returned result and error, readiness
events sent on the `ControllerEvents` channel, status-update calls,
warning events, and the effects applied to the process-wide controller
configuration) is collected in `MOut`.
-/

namespace GrafanaController

/-- Dashboard references are opaque to the controller; only identity
(structural equality via `reflect.DeepEqual`) matters. -/
abbrev GrafanaDashboardRef := String

/-- Status phase of a `Grafana` object.  The controller only writes
`PhaseReconciling` and `PhaseFailing`; any other phase an external writer
may have stored is kept abstract. -/
inductive StatusPhase where
  | phaseReconciling
  | phaseFailing
  | phaseOther (s : String)
deriving DecidableEq, Repr

/-- `GrafanaStatus`: the status sub-object mutated by the controller.
A Go nil slice is `none`, a non-nil slice is `some`. -/
structure GrafanaStatus where
  phase : StatusPhase
  message : String
  installedDashboards : Option (List GrafanaDashboardRef)
deriving DecidableEq, Repr

/-- `GrafanaIngress` spec fields read by the controller. -/
structure IngressSpec where
  hostname : String
deriving DecidableEq, Repr

/-- `GrafanaClient` spec fields read by the controller
(`TimeoutSeconds *int` becomes `Option Int`). -/
structure ClientSpec where
  timeoutSeconds : Option Int
deriving DecidableEq, Repr

/-- The typed fields of `GrafanaSpec` the controller reads.
`preferService` models the admin-URL preference flag on the spec that
`GetPreferServiceValue` resolves. -/
structure GrafanaSpec where
  ingress : Option IngressSpec
  client : Option ClientSpec
  dashboardLabelSelector : List String
  dashboardNamespaceSelector : Option String
  preferService : Bool
deriving DecidableEq, Repr

/-- A `Grafana` custom resource.  `nspace` is the object's namespace
(`namespace` is reserved in Lean); `grafanaPort` models the platform's
configured port for the instance, which `model.GetGrafanaPort` computes
from the spec. -/
structure Grafana where
  name : String
  nspace : String
  spec : GrafanaSpec
  status : GrafanaStatus
  grafanaPort : Int
deriving DecidableEq, Repr

/-- Modelled from the spec: `cr.GetPreferServiceValue()` (API package, not
in `src/`) returns whether the network-path-over-service preference flag
is set on the spec. -/
def GetPreferServiceValue (cr : Grafana) : Bool :=
  cr.spec.preferService

/-- Modelled from the spec: `model.GetGrafanaPort(cr)` (model package, not
in `src/`) returns the platform's configured port for that instance. -/
def GetGrafanaPort (cr : Grafana) : Int :=
  cr.grafanaPort

/-- An OpenShift route observed in the cluster state; the controller only
reads `Spec.Host`. -/
structure RouteSpec where
  host : String
deriving DecidableEq, Repr

structure Route where
  spec : RouteSpec
deriving DecidableEq, Repr

/-- One load-balancer endpoint reported in an ingress status. -/
structure LoadBalancerIngress where
  hostname : String
  ip : String
deriving DecidableEq, Repr

/-- A Kubernetes ingress observed in the cluster state; the controller
only reads `Status.LoadBalancer.Ingress`. -/
structure Ingress where
  lbIngress : List LoadBalancerIngress
deriving DecidableEq, Repr

/-- A service observed in the cluster state; the controller only reads its
name. -/
structure Service where
  name : String
deriving DecidableEq, Repr

/-- `common.ClusterState` as read by the URL resolver: the observed route,
ingress and service for the target (each possibly absent). -/
structure ClusterState where
  grafanaRoute : Option Route
  grafanaIngress : Option Ingress
  grafanaService : Option Service
deriving DecidableEq, Repr

/-- Errors returned by the object store and collaborators, classified the
way the controller classifies them (`errors.IsNotFound`,
`errors.IsConflict`); everything else is opaque with a message. -/
inductive GoError where
  | notFound
  | conflict
  | other (msg : String)
deriving DecidableEq, Repr

/-- `err.Error()`: the human-readable message of an error. -/
def errMsg : GoError → String
  | .notFound => "not found"
  | .conflict => "conflict"
  | .other msg => msg

/-- `errors.IsNotFound`. -/
def IsNotFound (e : GoError) : Bool := e = GoError.notFound

/-- `errors.IsConflict`. -/
def IsConflict (e : GoError) : Bool := e = GoError.conflict

/-- `const DefaultClientTimeoutSeconds = 5`. -/
def DefaultClientTimeoutSeconds : Int := 5

/-- Modelled from the spec: `config.RequeueDelay` (config package, not in
`src/`) is the fixed requeue delay; only that it is one fixed nonzero
duration matters. -/
def RequeueDelay : Nat := 10

/-- Modelled from the spec: `config.ConfigDashboardLabelSelector` is the
key of the dashboard-label-selector entry in the process-wide
configuration store. -/
def ConfigDashboardLabelSelector : String := "dashboard.label.selector"

/-- Modelled from the spec: `config.ConfigGrafanaDashboardsSynced` is the
key of the "dashboards synced" flag in the process-wide configuration
store. -/
def ConfigGrafanaDashboardsSynced : String := "grafana.dashboards.synced"

/-- A value held in the process-wide configuration store. -/
inductive ConfigValue where
  | boolVal (b : Bool)
  | strVal (s : String)
deriving DecidableEq, Repr

/-- Modelled from the spec: the process-wide controller configuration is a
keyed store plus the dashboard inventory (`Config.Dashboards`, a Go slice
that may be nil). -/
structure ControllerConfig where
  items : List (String × ConfigValue)
  dashboards : Option (List GrafanaDashboardRef)
deriving DecidableEq, Repr

/-- Keyed lookup in the configuration store. -/
def lookupItem (cfg : ControllerConfig) (key : String) : Option ConfigValue :=
  (cfg.items.find? (fun p => p.1 = key)).map Prod.snd

/-- Modelled from the spec: `Config.RemoveConfigItem(key)` removes the
entry for `key`. -/
def RemoveConfigItem (cfg : ControllerConfig) (key : String) : ControllerConfig :=
  { cfg with items := cfg.items.filter (fun p => p.1 ≠ key) }

/-- Modelled from the spec: `Config.GetConfigBool(key, dflt)` returns the
boolean stored at `key`, or `dflt` when absent. -/
def GetConfigBool (cfg : ControllerConfig) (key : String) (dflt : Bool) : Bool :=
  match lookupItem cfg key with
  | some (.boolVal b) => b
  | _ => dflt

/-- Modelled from the spec: `Config.SetDashboards` stores a (non-nil)
dashboard list. -/
def SetDashboards (cfg : ControllerConfig) (l : List GrafanaDashboardRef) :
    ControllerConfig :=
  { cfg with dashboards := some l }

/-- Side effects applied to the process-wide configuration during a
cycle, in order.  `Cleanup` and `InvalidateDashboards` act on cached
state outside the modelled store, so they are recorded as effects. -/
inductive ConfigEffect where
  | removeItem (key : String)
  | cleanup (force : Bool)
  | invalidateDashboards
  | setDashboards (l : List GrafanaDashboardRef)
deriving DecidableEq, Repr

/-- `common.ControllerState`: the immutable readiness event published on
the `ControllerEvents` channel. -/
structure ControllerState where
  dashboardSelectors : List String
  dashboardNamespaceSelector : Option String
  adminUrl : String
  grafanaReady : Bool
  clientTimeout : Int
deriving DecidableEq, Repr

/-- The Go zero value of `common.ControllerState`; the composite literal
`ControllerState{GrafanaReady: false}` equals it. -/
def ControllerState.zero : ControllerState :=
  { dashboardSelectors := []
    dashboardNamespaceSelector := none
    adminUrl := ""
    grafanaReady := false
    clientTimeout := 0 }

/-- `reconcile.Result`: `Result{}` has `RequeueAfter` zero. -/
structure ReconcileResult where
  requeueAfter : Nat
deriving DecidableEq, Repr

/-- Outcomes of the external calls one reconcile invocation can make.
Each call site executes at most once per invocation, so one outcome per
site suffices. -/
structure World where
  getInstance : Except GoError Grafana
  readState : Except GoError ClusterState
  runAll : Option GoError
  configMaps : Option GoError
  successGet : Except GoError Grafana
  successUpdate : Option GoError
  errorGet : Except GoError Grafana
  errorUpdate : Option GoError

/-- Everything observable about one reconcile invocation: the returned
`(reconcile.Result, error)` pair, readiness events sent to
`ControllerEvents` in order, statuses passed to `Status().Update` calls in
order, warning-event messages recorded against the resource, configuration
effects in order, and the resulting configuration store. -/
structure MOut where
  result : ReconcileResult
  err : Option GoError
  events : List ControllerState
  statusWrites : List GrafanaStatus
  warnings : List String
  effects : List ConfigEffect
  config : ControllerConfig
deriving Repr

/-- Prefix earlier-performed observations onto the outcome of a
continuation (used when `manageSuccess` falls through to `manageError`). -/
def MOut.prepend (writes : List GrafanaStatus) (warns : List String)
    (effs : List ConfigEffect) (m : MOut) : MOut :=
  { m with
    statusWrites := writes ++ m.statusWrites
    warnings := warns ++ m.warnings
    effects := effs ++ m.effects }

/-! ## Admin URL resolution (`getGrafanaAdminUrl`, lines 160-197) -/

/-- Lines 188-196: fall back to the in-cluster service URL, or fail. -/
def adminUrlFromService (cr : Grafana) (state : ClusterState) :
    Except GoError String :=
  let servicePort := GetGrafanaPort cr
  match state.grafanaService with
  | some service =>
      .ok ("http://" ++ service.name ++ "." ++ cr.nspace ++
        ".svc.cluster.local:" ++ toString servicePort)
  | none => .error (.other "failed to find admin url")

/-- Lines 178-185: pick the first load-balancer endpoint of the ingress,
hostname preferred over IP; with no endpoint, fall through to the
service. -/
def adminUrlFromIngressLB (cr : Grafana) (state : ClusterState)
    (ing : Ingress) : Except GoError String :=
  match ing.lbIngress with
  | first :: _ =>
      if first.hostname ≠ "" then .ok ("https://" ++ first.hostname)
      else .ok ("https://" ++ first.ip)
  | [] => adminUrlFromService cr state

/-- `getGrafanaAdminUrl` (lines 160-197): route first (unless the service
is preferred), then ingress (CR-specified hostname first, then
load-balancer endpoints), then the service, else an error. -/
def getGrafanaAdminUrl (cr : Grafana) (state : ClusterState) :
    Except GoError String :=
  let preferService := GetPreferServiceValue cr
  match state.grafanaRoute with
  | some route =>
      if !preferService then .ok ("https://" ++ route.spec.host)
      else adminUrlFromService cr state
  | none =>
      match state.grafanaIngress with
      | some ing =>
          if !preferService then
            match cr.spec.ingress with
            | some ispec =>
                if ispec.hostname ≠ "" then .ok ("https://" ++ ispec.hostname)
                else adminUrlFromIngressLB cr state ing
            | none => adminUrlFromIngressLB cr state ing
          else adminUrlFromService cr state
      | none => adminUrlFromService cr state

/-! ## Error path (`manageError`, lines 128-157) -/

/-- Lines 130-131: the status `manageError` computes on the working copy:
phase `Failing`, message the error text, other fields untouched. -/
def failStatus (cr : Grafana) (issue : GoError) : GrafanaStatus :=
  { cr.status with phase := .phaseFailing, message := errMsg issue }

/-- `manageError` (lines 128-157): record a warning event, set the
failing status, re-fetch the current object, write status only when it
differs (returning early on fetch errors and on write errors, a conflict
yielding a nil error), then invalidate the dashboard cache, publish a
readiness=false event and request the fixed requeue delay. -/
def manageError (cfg : ControllerConfig) (cr : Grafana) (issue : GoError)
    (w : World) : MOut :=
  let warns := [errMsg issue]
  let crStatus := failStatus cr issue
  match w.errorGet with
  | .error e =>
      { result := ⟨0⟩, err := some e, events := [], statusWrites := [],
        warnings := warns, effects := [], config := cfg }
  | .ok currentObj =>
      let tail : MOut :=
        { result := ⟨RequeueDelay⟩, err := none,
          events := [ControllerState.zero], statusWrites := [],
          warnings := warns, effects := [.invalidateDashboards],
          config := cfg }
      if crStatus ≠ currentObj.status then
        match w.errorUpdate with
        | some e =>
            if IsConflict e then
              { result := ⟨0⟩, err := none, events := [],
                statusWrites := [crStatus], warnings := warns,
                effects := [], config := cfg }
            else
              { result := ⟨0⟩, err := some e, events := [],
                statusWrites := [crStatus], warnings := warns,
                effects := [], config := cfg }
        | none => { tail with statusWrites := [crStatus] }
      else tail

/-! ## Success path (`manageSuccess`, lines 199-253) -/

/-- Lines 200-211: the first half of `manageSuccess`: set phase
`Reconciling` and message `"success"`; when the "dashboards synced" flag
is set copy the configuration's dashboard list into the status, otherwise
initialize the configuration's dashboard list to an empty slice when it
is still nil.  Returns the updated working copy, the updated
configuration and the configuration effects performed. -/
def successStatusStep (cfg : ControllerConfig) (cr : Grafana) :
    Grafana × ControllerConfig × List ConfigEffect :=
  let cr := { cr with status :=
    { cr.status with phase := .phaseReconciling, message := "success" } }
  if GetConfigBool cfg ConfigGrafanaDashboardsSynced false then
    ({ cr with status :=
        { cr.status with installedDashboards := cfg.dashboards } }, cfg, [])
  else if cfg.dashboards = none then
    (cr, SetDashboards cfg [], [.setDashboards []])
  else
    (cr, cfg, [])

/-- Lines 237-246: the client timeout published in the readiness event:
the spec override when present and non-negative, else the default. -/
def resolveClientTimeout (cr : Grafana) : Int :=
  match cr.spec.client with
  | some c =>
      match c.timeoutSeconds with
      | some seconds =>
          if seconds < 0 then DefaultClientTimeoutSeconds else seconds
      | none => DefaultClientTimeoutSeconds
  | none => DefaultClientTimeoutSeconds

/-- Lines 232-246: the readiness event published on the success path. -/
def mkControllerState (cr : Grafana) (url : String) : ControllerState :=
  { dashboardSelectors := cr.spec.dashboardLabelSelector
    dashboardNamespaceSelector := cr.spec.dashboardNamespaceSelector
    adminUrl := url
    grafanaReady := true
    clientTimeout := resolveClientTimeout cr }

/-- Lines 225-252: the tail of `manageSuccess` after status writing:
resolve the admin URL (routing failure to the error path), publish the
readiness event for the working copy, and request the fixed requeue
delay. -/
def manageSuccessPublish (cfg : ControllerConfig) (cr : Grafana)
    (state : ClusterState) (w : World) : MOut :=
  match getGrafanaAdminUrl cr state with
  | .error e => manageError cfg cr e w
  | .ok url =>
      { result := ⟨RequeueDelay⟩, err := none,
        events := [mkControllerState cr url], statusWrites := [],
        warnings := [], effects := [], config := cfg }

/-- `manageSuccess` (lines 199-253): compute the success status
(`successStatusStep`), re-fetch the current object, write status only
when it differs, and continue with `manageSuccessPublish`; fetch and
write failures route to `manageError` with the already-updated working
copy. -/
def manageSuccess (cfg : ControllerConfig) (cr : Grafana)
    (state : ClusterState) (w : World) : MOut :=
  let cr2 := (successStatusStep cfg cr).1
  let cfg2 := (successStatusStep cfg cr).2.1
  let effs := (successStatusStep cfg cr).2.2
  let tail : MOut :=
    match w.successGet with
    | .error e => manageError cfg2 cr2 e w
    | .ok currentObj =>
        if cr2.status ≠ currentObj.status then
          match w.successUpdate with
          | some e =>
              MOut.prepend [cr2.status] [] [] (manageError cfg2 cr2 e w)
          | none =>
              MOut.prepend [cr2.status] [] []
                (manageSuccessPublish cfg2 cr2 state w)
        else manageSuccessPublish cfg2 cr2 state w
  MOut.prepend [] [] effs tail

/-! ## Orchestrator (`Reconcile`, lines 79-126) -/

/-- `Reconcile` (lines 79-126): fetch the target object.  Not found:
clear the dashboard-label-selector key, force cleanup, publish a
readiness=false event and return success with no requeue.  Other fetch
error: return it with no event.  Otherwise read the cluster state, plan
and apply actions, reconcile config maps — any failure routes to
`manageError` — and finish with `manageSuccess`.  The plan generation
itself (`NewGrafanaReconciler().Reconcile`) cannot fail and its output is
consumed only by the action runner, so only the runner's outcome is
modelled. -/
def Reconcile (cfg : ControllerConfig) (w : World) : MOut :=
  match w.getInstance with
  | .error e =>
      if IsNotFound e then
        { result := ⟨0⟩, err := none, events := [ControllerState.zero],
          statusWrites := [], warnings := [],
          effects := [.removeItem ConfigDashboardLabelSelector,
            .cleanup true],
          config := RemoveConfigItem cfg ConfigDashboardLabelSelector }
      else
        { result := ⟨0⟩, err := some e, events := [], statusWrites := [],
          warnings := [], effects := [], config := cfg }
  | .ok instanceObj =>
      let cr := instanceObj
      match w.readState with
      | .error e => manageError cfg cr e w
      | .ok currentState =>
          match w.runAll with
          | some e => manageError cfg cr e w
          | none =>
              match w.configMaps with
              | some e => manageError cfg cr e w
              | none => manageSuccess cfg cr currentState w

/-! ## Concrete fixtures used to instantiate the theorems -/

/-- A `Grafana` object with an empty spec, in namespace `ns`, port 3000. -/
def cr0 : Grafana :=
  { name := "g", nspace := "ns",
    spec := { ingress := none, client := none, dashboardLabelSelector := [],
              dashboardNamespaceSelector := none, preferService := false },
    status := { phase := .phaseOther "", message := "",
                installedDashboards := none },
    grafanaPort := 3000 }

/-- An empty configuration store with a nil dashboard list. -/
def cfg0 : ControllerConfig := { items := [], dashboards := none }

/-- A base world in which every external call fails; individual theorems
override the fields that the path under study exercises. -/
def w0 : World :=
  { getInstance := .error (.other "unused")
    readState := .error (.other "unused")
    runAll := none
    configMaps := none
    successGet := .error (.other "unused")
    successUpdate := none
    errorGet := .error (.other "unused")
    errorUpdate := none }

/-- A world whose snapshot read fails and whose error-path re-fetch also
fails. -/
def wBoom1 : World :=
  { w0 with
    getInstance := .ok cr0
    readState := .error (.other "boom1") }

/-- A world whose snapshot read fails with a distinct message; the
error-path re-fetch also fails. -/
def wSnapshot : World :=
  { w0 with
    getInstance := .ok cr0
    readState := .error (.other "snapshot") }

/-- A world whose error-path re-fetch succeeds but whose error-path
status write fails with a conflict. -/
def wConflict : World :=
  { w0 with
    errorGet := .ok cr0
    errorUpdate := some .conflict }

/-- A world whose error-path re-fetch and status write both succeed. -/
def wErrOk : World := { w0 with errorGet := .ok cr0 }

/-- A world in which every external call of the success path succeeds,
with a service-only snapshot. -/
def wFull : World :=
  { w0 with
    getInstance := .ok cr0
    readState := .ok ⟨none, none, some ⟨"g"⟩⟩
    successGet := .ok cr0
    errorGet := .ok cr0 }

/-- A configuration store with the dashboards-synced flag set and a
non-empty dashboard inventory. -/
def cfgSynced : ControllerConfig :=
  { items := [(ConfigGrafanaDashboardsSynced, .boolVal true)]
    dashboards := some ["a"] }

/-- A `Grafana` object whose stored status already lists one installed
dashboard. -/
def crD : Grafana :=
  { cr0 with status := { cr0.status with installedDashboards := some ["d"] } }

/-- A snapshot holding only a service named `g`. -/
def stSvc : ClusterState := ⟨none, none, some ⟨"g"⟩⟩

/-- A stored object whose status already equals the failing status the
error path computes for `cr0` with error message `b8`. -/
def objE8 : Grafana := { cr0 with status := failStatus cr0 (.other "b8") }

/-- A stored object whose status already equals the success status the
success path computes for `cr0` under `cfg0`. -/
def objS8 : Grafana :=
  { cr0 with status := ⟨.phaseReconciling, "success", none⟩ }

/-- A world whose error-path re-fetch returns `objE8`. -/
def wE8 : World := { w0 with errorGet := .ok objE8 }

/-- A world whose success-path re-fetch returns `objS8`. -/
def wS8 : World := { w0 with successGet := .ok objS8 }

/-! ## Theorems -/

theorem MOut.prepend_events (a : List GrafanaStatus) (b : List String)
    (c : List ConfigEffect) (m : MOut) : (MOut.prepend a b c m).events = m.events :=
  rfl

theorem MOut.prepend_statusWrites (a : List GrafanaStatus) (b : List String)
    (c : List ConfigEffect) (m : MOut) :
    (MOut.prepend a b c m).statusWrites = a ++ m.statusWrites :=
  rfl

/-- The error path publishes either no event or exactly the zero event. -/
theorem manageError_events_cases (cfg : ControllerConfig) (cr : Grafana)
    (issue : GoError) (w : World) :
    (manageError cfg cr issue w).events = []
    ∨ (manageError cfg cr issue w).events = [ControllerState.zero] := by
  unfold manageError
  cases hw : w.errorGet with
  | error e => exact Or.inl rfl
  | ok obj =>
      by_cases h : failStatus cr issue ≠ obj.status
      · cases hu : w.errorUpdate with
        | some e => by_cases hc : IsConflict e <;> simp [h, hc]
        | none => simp [h]
      · simp [h]

/-- When the error path's re-fetch succeeds and the status write does not
fail, the error path runs to completion: one readiness=false event, the
fixed requeue delay, a nil error, and the dashboard cache invalidated. -/
theorem manageError_complete (cfg : ControllerConfig) (cr : Grafana)
    (issue : GoError) (w : World) (obj : Grafana)
    (hg : w.errorGet = .ok obj) (hu : w.errorUpdate = none) :
    (manageError cfg cr issue w).events = [ControllerState.zero]
    ∧ (manageError cfg cr issue w).result.requeueAfter = RequeueDelay
    ∧ (manageError cfg cr issue w).err = none
    ∧ (manageError cfg cr issue w).effects = [.invalidateDashboards] := by
  unfold manageError
  rw [hg]
  by_cases h : failStatus cr issue ≠ obj.status
  · simp [h, hu]
  · simp [h]

/-- The error path publishes at most one event. -/
theorem manageError_events_len (cfg : ControllerConfig) (cr : Grafana)
    (issue : GoError) (w : World) :
    (manageError cfg cr issue w).events.length ≤ 1 := by
  rcases manageError_events_cases cfg cr issue w with h | h <;> simp [h]

/-- The success-path tail publishes at most one event. -/
theorem manageSuccessPublish_events_len (cfg : ControllerConfig)
    (cr : Grafana) (state : ClusterState) (w : World) :
    (manageSuccessPublish cfg cr state w).events.length ≤ 1 := by
  unfold manageSuccessPublish
  cases hurl : getGrafanaAdminUrl cr state with
  | error e => exact manageError_events_len cfg cr e w
  | ok url => simp

/-- When the error path's call sites would succeed, the success-path tail
publishes exactly one event. -/
theorem manageSuccessPublish_complete (cfg : ControllerConfig)
    (cr : Grafana) (state : ClusterState) (w : World) (obj : Grafana)
    (hg : w.errorGet = .ok obj) (hu : w.errorUpdate = none) :
    (manageSuccessPublish cfg cr state w).events.length = 1 := by
  unfold manageSuccessPublish
  cases hurl : getGrafanaAdminUrl cr state with
  | error e => simp [(manageError_complete cfg cr e w obj hg hu).1]
  | ok url => simp

/-- The success path publishes at most one event. -/
theorem manageSuccess_events_len (cfg : ControllerConfig) (cr : Grafana)
    (state : ClusterState) (w : World) :
    (manageSuccess cfg cr state w).events.length ≤ 1 := by
  unfold manageSuccess
  simp only [MOut.prepend_events]
  cases hw : w.successGet with
  | error e => exact manageError_events_len _ _ e w
  | ok obj =>
      by_cases h : (successStatusStep cfg cr).1.status ≠ obj.status
      · cases hu : w.successUpdate with
        | some e =>
            simpa only [if_pos h, MOut.prepend_events] using
              manageError_events_len _ _ e w
        | none =>
            simpa only [if_pos h, MOut.prepend_events] using
              manageSuccessPublish_events_len _ _ state w
      · simpa only [if_neg h] using
          manageSuccessPublish_events_len _ _ state w

/-- When re-fetches and status writes succeed at every call site, the
success path publishes exactly one event. -/
theorem manageSuccess_complete (cfg : ControllerConfig) (cr : Grafana)
    (state : ClusterState) (w : World) (objS objE : Grafana)
    (hsg : w.successGet = .ok objS) (hsu : w.successUpdate = none)
    (hg : w.errorGet = .ok objE) (hu : w.errorUpdate = none) :
    (manageSuccess cfg cr state w).events.length = 1 := by
  unfold manageSuccess
  simp only [MOut.prepend_events, hsg]
  by_cases h : (successStatusStep cfg cr).1.status ≠ objS.status
  · simpa only [if_pos h, hsu, MOut.prepend_events] using
      manageSuccessPublish_complete _ _ state w objE hg hu
  · simpa only [if_neg h] using
      manageSuccessPublish_complete _ _ state w objE hg hu

/-- Removing a key from the configuration store really removes it. -/
theorem lookupItem_RemoveConfigItem (cfg : ControllerConfig) (key : String) :
    lookupItem (RemoveConfigItem cfg key) key = none := by
  have h : List.find? (fun p => decide (p.1 = key))
      (List.filter (fun p => decide (p.1 ≠ key)) cfg.items) = none := by
    rw [List.find?_eq_none]
    intro p hp
    simp only [List.mem_filter] at hp
    simpa using hp.2
  simp only [lookupItem, RemoveConfigItem]
  rw [h]
  rfl

/-- C1 counterexample: an invocation that takes the recoverable-error
path (the snapshot read fails) publishes zero readiness events when the
error path's re-fetch also fails, refuting "never zero" on that path. -/
theorem c1_counterexample :
    wBoom1.getInstance = .ok cr0
    ∧ wBoom1.readState = .error (.other "boom1")
    ∧ (Reconcile cfg0 wBoom1).events = [] :=
  ⟨rfl, rfl, rfl⟩

/-- C1 (amended): every invocation publishes at most one readiness
event; the not-found path publishes exactly one; a non-NotFound initial
fetch failure publishes zero; and when the re-fetch and status-write call
sites succeed, an invocation that fetched its object publishes exactly
one.  (The error path publishes zero when its own re-fetch or status
write fails, a conflict included.) -/
theorem c1_exactly_one_event (cfg : ControllerConfig) (w : World) :
    (Reconcile cfg w).events.length ≤ 1
    ∧ (w.getInstance = .error .notFound → (Reconcile cfg w).events.length = 1)
    ∧ (∀ e, w.getInstance = .error e → e ≠ .notFound →
        (Reconcile cfg w).events = [])
    ∧ (∀ c objS objE, w.getInstance = .ok c → w.successGet = .ok objS →
        w.successUpdate = none → w.errorGet = .ok objE →
        w.errorUpdate = none → (Reconcile cfg w).events.length = 1) := by
  refine ⟨?_, ?_, ?_, ?_⟩
  · unfold Reconcile
    cases hw : w.getInstance with
    | error e => by_cases he : IsNotFound e <;> simp [he]
    | ok c =>
        cases hr : w.readState with
        | error e => exact manageError_events_len cfg c e w
        | ok st =>
            cases hra : w.runAll with
            | some e => exact manageError_events_len cfg c e w
            | none =>
                cases hcm : w.configMaps with
                | some e => exact manageError_events_len cfg c e w
                | none => exact manageSuccess_events_len cfg c st w
  · intro h
    unfold Reconcile
    rw [h]
    rfl
  · intro e h hne
    unfold Reconcile
    rw [h]
    have hn : IsNotFound e = false := by simp [IsNotFound, hne]
    simp [hn]
  · intro c objS objE hc hsg hsu hg hu
    unfold Reconcile
    rw [hc]
    cases hr : w.readState with
    | error e => simp [(manageError_complete cfg c e w objE hg hu).1]
    | ok st =>
        cases hra : w.runAll with
        | some e => simp [(manageError_complete cfg c e w objE hg hu).1]
        | none =>
            cases hcm : w.configMaps with
            | some e => simp [(manageError_complete cfg c e w objE hg hu).1]
            | none =>
                exact manageSuccess_complete cfg c st w objS objE hsg hsu hg hu

theorem c1_exactly_one_event_witness :
    (Reconcile cfg0 wFull).events.length = 1 :=
  (c1_exactly_one_event cfg0 wFull).2.2.2 cr0 cr0 cr0 rfl rfl rfl rfl rfl

/-- C2 counterexample: on the error path a conflicting status write is
not logically equivalent to a successful one: the returned error is nil,
but the invocation returns no requeue delay and publishes no event,
whereas a successful write yields the fixed delay and one event. -/
theorem c2_counterexample :
    (manageError cfg0 cr0 (.other "boom2") wConflict).err = none
    ∧ (manageError cfg0 cr0 (.other "boom2") wConflict).result.requeueAfter = 0
    ∧ (manageError cfg0 cr0 (.other "boom2") wConflict).events = []
    ∧ (manageError cfg0 cr0 (.other "boom2") wErrOk).result.requeueAfter =
        RequeueDelay
    ∧ (manageError cfg0 cr0 (.other "boom2") wErrOk).events =
        [ControllerState.zero]
    ∧ (0 : Nat) ≠ RequeueDelay := by
  refine ⟨rfl, rfl, rfl, rfl, rfl, by decide⟩

/-- C2 (amended): on the error path a conflict-class status-write
failure yields a nil returned error, but the invocation stops
immediately: no requeue delay, no readiness event and no dashboard
invalidation.  On the success path a status-write failure (conflict
included) is not swallowed but routed to the error path, so any event
published then carries readiness=false. -/
theorem c2_conflict_swallowing (cfg : ControllerConfig) (cr : Grafana)
    (issue : GoError) (state : ClusterState) (w : World) :
    (∀ obj, w.errorGet = .ok obj → failStatus cr issue ≠ obj.status →
      w.errorUpdate = some .conflict →
      (manageError cfg cr issue w).err = none
      ∧ (manageError cfg cr issue w).result.requeueAfter = 0
      ∧ (manageError cfg cr issue w).events = []
      ∧ (manageError cfg cr issue w).effects = []
      ∧ (manageError cfg cr issue w).statusWrites = [failStatus cr issue])
    ∧ (∀ e obj, w.successGet = .ok obj →
        (successStatusStep cfg cr).1.status ≠ obj.status →
        w.successUpdate = some e →
        ∀ ev ∈ (manageSuccess cfg cr state w).events, ev.grafanaReady = false) := by
  constructor
  · intro obj hg hne hu
    unfold manageError
    rw [hg]
    simp [hne, hu, IsConflict]
  · intro e obj hsg hstat hsu ev hev
    unfold manageSuccess at hev
    simp only [MOut.prepend_events, hsg, if_pos hstat, hsu] at hev
    rcases manageError_events_cases (successStatusStep cfg cr).2.1
        (successStatusStep cfg cr).1 e w with h | h <;> rw [h] at hev
    · cases hev
    · simp at hev
      rw [hev]
      rfl

theorem c2_conflict_swallowing_witness :
    (manageError cfg0 cr0 (.other "boomw2") wConflict).err = none :=
  ((c2_conflict_swallowing cfg0 cr0 (.other "boomw2") ⟨none, none, none⟩
      wConflict).1 cr0 rfl (by decide) rfl).1

/-- C3 counterexample: a recoverable failure (the snapshot read fails)
does not always yield the fixed requeue delay with a nil error: when the
error path's re-fetch fails, the invocation returns that error with no
requeue delay. -/
theorem c3_counterexample :
    wSnapshot.readState = .error (.other "snapshot")
    ∧ (Reconcile cfg0 wSnapshot).err = some (.other "unused")
    ∧ (Reconcile cfg0 wSnapshot).result.requeueAfter = 0
    ∧ (0 : Nat) ≠ RequeueDelay :=
  ⟨rfl, rfl, rfl, by decide⟩

/-- C3 (amended): every recoverable failure routes to the error path,
which returns the fixed requeue delay with a nil error provided its
re-fetch succeeds and the status write is skipped or succeeds; when the
re-fetch fails, the invocation instead returns that error with no
requeue. -/
theorem c3_recoverable_requeue (cfg : ControllerConfig) (cr : Grafana)
    (issue : GoError) (w : World) :
    (∀ obj, w.errorGet = .ok obj → w.errorUpdate = none →
      (manageError cfg cr issue w).result.requeueAfter = RequeueDelay
      ∧ (manageError cfg cr issue w).err = none)
    ∧ (∀ e, w.errorGet = .error e →
      (manageError cfg cr issue w).result.requeueAfter = 0
      ∧ (manageError cfg cr issue w).err = some e
      ∧ (manageError cfg cr issue w).events = [])
    ∧ (∀ c e, w.getInstance = .ok c → w.readState = .error e →
        Reconcile cfg w = manageError cfg c e w)
    ∧ (∀ c st e, w.getInstance = .ok c → w.readState = .ok st →
        w.runAll = some e → Reconcile cfg w = manageError cfg c e w)
    ∧ (∀ c st e, w.getInstance = .ok c → w.readState = .ok st →
        w.runAll = none → w.configMaps = some e →
        Reconcile cfg w = manageError cfg c e w) := by
  refine ⟨?_, ?_, ?_, ?_, ?_⟩
  · intro obj hg hu
    exact ⟨(manageError_complete cfg cr issue w obj hg hu).2.1,
      (manageError_complete cfg cr issue w obj hg hu).2.2.1⟩
  · intro e hg
    unfold manageError
    rw [hg]
    exact ⟨rfl, rfl, rfl⟩
  · intro c e hc hr
    unfold Reconcile
    rw [hc, hr]
  · intro c st e hc hr hra
    unfold Reconcile
    rw [hc, hr, hra]
  · intro c st e hc hr hra hcm
    unfold Reconcile
    rw [hc, hr, hra, hcm]

theorem c3_recoverable_requeue_witness :
    (manageError cfg0 cr0 (.other "boom3") wErrOk).result.requeueAfter =
      RequeueDelay :=
  ((c3_recoverable_requeue cfg0 cr0 (.other "boom3") wErrOk).1 cr0 rfl rfl).1

/-- C4 counterexample: with the synced flag unset and a nil configuration
dashboard list, the installed-dashboards status field is left unchanged
(here a non-empty list), not defaulted to an empty list. -/
theorem c4_counterexample :
    GetConfigBool cfg0 ConfigGrafanaDashboardsSynced false = false
    ∧ cfg0.dashboards = none
    ∧ (successStatusStep cfg0 crD).1.status.installedDashboards = some ["d"]
    ∧ (some ["d"] : Option (List GrafanaDashboardRef)) ≠ some [] :=
  ⟨rfl, rfl, rfl, by decide⟩

/-- C4 (amended): on the success path, when the dashboards-synced flag is
set the installed-dashboards status field is copied from the
configuration's dashboard list; when the flag is unset and the
configuration's dashboard list is nil, the status field is left
unchanged, while the configuration's dashboard list (not the status
field) is initialized to an empty list. -/
theorem c4_installed_dashboards (cfg : ControllerConfig) (cr : Grafana) :
    (GetConfigBool cfg ConfigGrafanaDashboardsSynced false = true →
      (successStatusStep cfg cr).1.status.installedDashboards = cfg.dashboards)
    ∧ (GetConfigBool cfg ConfigGrafanaDashboardsSynced false = false →
      cfg.dashboards = none →
      (successStatusStep cfg cr).1.status.installedDashboards =
        cr.status.installedDashboards
      ∧ (successStatusStep cfg cr).2.1.dashboards = some []
      ∧ (successStatusStep cfg cr).2.2 = [.setDashboards []]) := by
  constructor
  · intro h
    simp [successStatusStep, h]
  · intro h hd
    refine ⟨?_, ?_, ?_⟩ <;> simp [successStatusStep, h, hd, SetDashboards]

theorem c4_installed_dashboards_witness :
    (successStatusStep cfgSynced cr0).1.status.installedDashboards =
      some ["a"] := by
  have h := (c4_installed_dashboards cfgSynced cr0).1 (by decide)
  simpa [cfgSynced] using h

/-- C6: reconciling an identity whose target object is not found removes
the dashboard-label-selector configuration key, invokes forced cleanup,
publishes exactly one readiness event with readiness false, and returns
no error and no requeue directive. -/
theorem c6_deletion_cleanup (cfg : ControllerConfig) (w : World)
    (h : w.getInstance = .error .notFound) :
    (Reconcile cfg w).effects =
      [.removeItem ConfigDashboardLabelSelector, .cleanup true]
    ∧ lookupItem (Reconcile cfg w).config ConfigDashboardLabelSelector = none
    ∧ (Reconcile cfg w).events = [ControllerState.zero]
    ∧ ControllerState.zero.grafanaReady = false
    ∧ (Reconcile cfg w).err = none
    ∧ (Reconcile cfg w).result.requeueAfter = 0 := by
  unfold Reconcile
  rw [h]
  refine ⟨rfl, ?_, rfl, rfl, rfl, rfl⟩
  simpa [IsNotFound] using lookupItem_RemoveConfigItem cfg ConfigDashboardLabelSelector

theorem c6_deletion_cleanup_witness :
    (Reconcile cfg0 { w0 with getInstance := .error .notFound }).events =
      [ControllerState.zero] :=
  (c6_deletion_cleanup cfg0 { w0 with getInstance := .error .notFound }
    rfl).2.2.1

/-- C5: with the service-preference flag unset, a populated route wins
over a populated ingress, and for an ingress alone an explicit spec
hostname override wins over any load-balancer-reported address. -/
theorem c5_url_priority (cr : Grafana) (state : ClusterState)
    (hp : GetPreferServiceValue cr = false) :
    (∀ route ing, state.grafanaRoute = some route →
      state.grafanaIngress = some ing →
      getGrafanaAdminUrl cr state = .ok ("https://" ++ route.spec.host))
    ∧ (∀ ing ispec, state.grafanaRoute = none →
      state.grafanaIngress = some ing →
      cr.spec.ingress = some ispec → ispec.hostname ≠ "" →
      getGrafanaAdminUrl cr state = .ok ("https://" ++ ispec.hostname)) := by
  constructor
  · intro route ing hr _
    unfold getGrafanaAdminUrl
    rw [hr, hp]
    rfl
  · intro ing ispec hr hi hs hn
    unfold getGrafanaAdminUrl
    rw [hr, hi, hp, hs]
    simp [hn]

theorem c5_url_priority_witness :
    getGrafanaAdminUrl cr0
        ⟨some ⟨⟨"rh"⟩⟩, some ⟨[⟨"lb", "1.2.3.4"⟩]⟩, none⟩ = .ok "https://rh"
    ∧ getGrafanaAdminUrl
        { cr0 with spec := { cr0.spec with ingress := some ⟨"ov"⟩ } }
        ⟨none, some ⟨[⟨"lb", "1.2.3.4"⟩]⟩, none⟩ = .ok "https://ov" :=
  ⟨(c5_url_priority cr0 ⟨some ⟨⟨"rh"⟩⟩, some ⟨[⟨"lb", "1.2.3.4"⟩]⟩, none⟩
      rfl).1 ⟨⟨"rh"⟩⟩ ⟨[⟨"lb", "1.2.3.4"⟩]⟩ rfl rfl,
   (c5_url_priority
      { cr0 with spec := { cr0.spec with ingress := some ⟨"ov"⟩ } }
      ⟨none, some ⟨[⟨"lb", "1.2.3.4"⟩]⟩, none⟩ rfl).2
      ⟨[⟨"lb", "1.2.3.4"⟩]⟩ ⟨"ov"⟩ rfl rfl rfl (by decide)⟩

/-- C10: with the preference flag unset, no route, an ingress with no
hostname override and zero load-balancer endpoints, resolution falls
through to the in-cluster service URL when a service exists, and fails
with the no-admin-url error only when none does. -/
theorem c10_ingress_fallthrough (cr : Grafana) (state : ClusterState)
    (ing : Ingress)
    (hp : GetPreferServiceValue cr = false)
    (hr : state.grafanaRoute = none)
    (hi : state.grafanaIngress = some ing)
    (hlb : ing.lbIngress = [])
    (hov : cr.spec.ingress = none ∨
      ∃ ispec, cr.spec.ingress = some ispec ∧ ispec.hostname = "") :
    (∀ service, state.grafanaService = some service →
      getGrafanaAdminUrl cr state =
        .ok ("http://" ++ service.name ++ "." ++ cr.nspace ++
          ".svc.cluster.local:" ++ toString (GetGrafanaPort cr)))
    ∧ (state.grafanaService = none →
      getGrafanaAdminUrl cr state = .error (.other "failed to find admin url")) := by
  have hmain : getGrafanaAdminUrl cr state = adminUrlFromService cr state := by
    rcases hov with hno | ⟨ispec, hsome, hempty⟩
    · simp [getGrafanaAdminUrl, adminUrlFromIngressLB, hp, hr, hi, hlb, hno]
    · simp [getGrafanaAdminUrl, adminUrlFromIngressLB, hp, hr, hi, hlb, hsome,
        hempty]
  constructor
  · intro service hs
    rw [hmain]
    unfold adminUrlFromService
    rw [hs]
  · intro hs
    rw [hmain]
    unfold adminUrlFromService
    rw [hs]

theorem c10_ingress_fallthrough_witness :
    getGrafanaAdminUrl cr0 ⟨none, some ⟨[]⟩, some ⟨"g"⟩⟩ =
      .ok "http://g.ns.svc.cluster.local:3000"
    ∧ getGrafanaAdminUrl cr0 ⟨none, some ⟨[]⟩, none⟩ =
      .error (.other "failed to find admin url") :=
  ⟨((c10_ingress_fallthrough cr0 ⟨none, some ⟨[]⟩, some ⟨"g"⟩⟩ ⟨[]⟩
      rfl rfl rfl rfl (Or.inl rfl)).1 ⟨"g"⟩ rfl).trans (by rfl),
   (c10_ingress_fallthrough cr0 ⟨none, some ⟨[]⟩, none⟩ ⟨[]⟩
      rfl rfl rfl rfl (Or.inl rfl)).2 rfl⟩

/-- C7: the client-timeout field of the readiness event published on the
success path is the fixed default 5 when the spec gives no override or a
negative override, and equals any non-negative override. -/
theorem c7_timeout_defaulting (cfg : ControllerConfig) (cr : Grafana)
    (state : ClusterState) (w : World) :
    (cr.spec.client = none → resolveClientTimeout cr = 5)
    ∧ (∀ c, cr.spec.client = some c → c.timeoutSeconds = none →
        resolveClientTimeout cr = 5)
    ∧ (∀ c s, cr.spec.client = some c → c.timeoutSeconds = some s → s < 0 →
        resolveClientTimeout cr = 5)
    ∧ (∀ c s, cr.spec.client = some c → c.timeoutSeconds = some s → 0 ≤ s →
        resolveClientTimeout cr = s)
    ∧ (∀ url, getGrafanaAdminUrl cr state = .ok url →
        (manageSuccessPublish cfg cr state w).events =
          [mkControllerState cr url]
        ∧ (mkControllerState cr url).clientTimeout = resolveClientTimeout cr) := by
  refine ⟨?_, ?_, ?_, ?_, ?_⟩
  · intro h
    simp [resolveClientTimeout, h, DefaultClientTimeoutSeconds]
  · intro c hc ht
    simp [resolveClientTimeout, hc, ht, DefaultClientTimeoutSeconds]
  · intro c s hc ht hneg
    simp [resolveClientTimeout, hc, ht, hneg, DefaultClientTimeoutSeconds]
  · intro c s hc ht hpos
    simp [resolveClientTimeout, hc, ht, not_lt.mpr hpos,
      DefaultClientTimeoutSeconds]
  · intro url hurl
    unfold manageSuccessPublish
    rw [hurl]
    exact ⟨rfl, rfl⟩

theorem c7_timeout_defaulting_witness :
    resolveClientTimeout
      { cr0 with spec := { cr0.spec with client := some ⟨some (-1)⟩ } } = 5
    ∧ resolveClientTimeout
      { cr0 with spec := { cr0.spec with client := some ⟨some 30⟩ } } = 30
    ∧ resolveClientTimeout cr0 = 5
    ∧ (manageSuccessPublish cfg0 cr0 ⟨none, none, some ⟨"g"⟩⟩ w0).events =
        [mkControllerState cr0 "http://g.ns.svc.cluster.local:3000"] :=
  ⟨(c7_timeout_defaulting cfg0
      { cr0 with spec := { cr0.spec with client := some ⟨some (-1)⟩ } }
      ⟨none, none, none⟩ w0).2.2.1 ⟨some (-1)⟩ (-1) rfl rfl (by decide),
   (c7_timeout_defaulting cfg0
      { cr0 with spec := { cr0.spec with client := some ⟨some 30⟩ } }
      ⟨none, none, none⟩ w0).2.2.2.1 ⟨some 30⟩ 30 rfl rfl (by decide),
   (c7_timeout_defaulting cfg0 cr0 ⟨none, none, none⟩ w0).1 rfl,
   ((c7_timeout_defaulting cfg0 cr0 ⟨none, none, some ⟨"g"⟩⟩ w0).2.2.2.2
      "http://g.ns.svc.cluster.local:3000" (by rfl)).1⟩

/-- C8: whenever the freshly re-fetched object's status structurally
equals the computed status, no status-write call is made — on the error
path unconditionally, and on the success path whenever it completes (the
URL resolves, so it does not detour to the error path). -/
theorem c8_idempotent_status_write (cfg : ControllerConfig) (cr : Grafana)
    (issue : GoError) (state : ClusterState) (w : World) :
    (∀ obj, w.errorGet = .ok obj → failStatus cr issue = obj.status →
      (manageError cfg cr issue w).statusWrites = [])
    ∧ (∀ obj url, w.successGet = .ok obj →
        (successStatusStep cfg cr).1.status = obj.status →
        getGrafanaAdminUrl (successStatusStep cfg cr).1 state = .ok url →
        (manageSuccess cfg cr state w).statusWrites = []) := by
  constructor
  · intro obj hg heq
    unfold manageError
    simp only [hg, if_neg (not_not_intro heq)]
  · intro obj url hsg heq hurl
    unfold manageSuccess
    simp only [MOut.prepend_statusWrites, List.nil_append, hsg,
      if_neg (not_not_intro heq), manageSuccessPublish, hurl]

theorem c8_idempotent_status_write_witness :
    (manageError cfg0 cr0 (.other "b8") wE8).statusWrites = []
    ∧ (manageSuccess cfg0 cr0 stSvc wS8).statusWrites = [] :=
  ⟨(c8_idempotent_status_write cfg0 cr0 (.other "b8") stSvc wE8).1
      objE8 rfl rfl,
   (c8_idempotent_status_write cfg0 cr0 (.other "b8") stSvc wS8).2
      objS8 "http://g.ns.svc.cluster.local:3000" rfl rfl (by rfl)⟩

/-- C9: the readiness events published on the not-found path and on the
error path are exactly the zero event: readiness false, client timeout 0
(not the default 5), empty admin URL and empty selectors; the timeout
defaulting rule only shapes success-path events. -/
theorem c9_nonsuccess_events_zero (cfg : ControllerConfig) (cr : Grafana)
    (issue : GoError) (w : World) :
    (ControllerState.zero.grafanaReady = false
      ∧ ControllerState.zero.clientTimeout = 0
      ∧ ControllerState.zero.clientTimeout ≠ DefaultClientTimeoutSeconds
      ∧ ControllerState.zero.adminUrl = ""
      ∧ ControllerState.zero.dashboardSelectors = []
      ∧ ControllerState.zero.dashboardNamespaceSelector = none)
    ∧ (w.getInstance = .error .notFound →
        (Reconcile cfg w).events = [ControllerState.zero])
    ∧ (∀ ev ∈ (manageError cfg cr issue w).events, ev = ControllerState.zero) := by
  refine ⟨⟨rfl, rfl, by decide, rfl, rfl, rfl⟩, ?_, ?_⟩
  · intro h
    unfold Reconcile
    rw [h]
    rfl
  · intro ev hev
    rcases manageError_events_cases cfg cr issue w with h | h <;> rw [h] at hev
    · cases hev
    · simpa using hev

theorem c9_nonsuccess_events_zero_witness :
    (Reconcile cfgSynced { w0 with getInstance := .error .notFound }).events =
      [ControllerState.zero] :=
  (c9_nonsuccess_events_zero cfgSynced cr0 (.other "x9")
    { w0 with getInstance := .error .notFound }).2.1 rfl

end GrafanaController
